import Mathlib

/-!
Shallow embedding of src/refresh_extract.py (a Tableau REST API client that
signs in, resolves project/workbook/datasource/schedule/extract-refresh-task
names to ids, triggers a run-now, and signs out).

HTTP responses are modelled as already-received data: a status code together
with the two parse views of the body text (the error envelope used by
_check_status and the per-call success body).  Python expressions of the form
element.get(attr) return Option String; element.find(path) returns an
Option of the child element.  A Python run of one of the functions either
returns a value, raises ApiCallError, raises LookupError, or aborts with an
AttributeError from dereferencing None; this is the PyOutcome type.
-/

namespace RefreshExtract

/-- Outcome of running one of the script's functions: normal return,
raised ApiCallError, raised LookupError (not-found), or an uncaught
AttributeError from calling a method on None. -/
inductive PyOutcome (α : Type) where
  | ok : α → PyOutcome α
  | apiCallError : String → PyOutcome α
  | lookupError : String → PyOutcome α
  | attributeError : PyOutcome α
  deriving DecidableEq, Repr

/-- True exactly when the outcome is a raised ApiCallError. -/
def PyOutcome.isApiCallError {α : Type} : PyOutcome α → Bool
  | .apiCallError _ => true
  | _ => false

/-- Lowercase hexadecimal digits, as used by Python's backslashreplace
error handler: the characters 0-9 (codepoints 48-57) then a-f (97-102). -/
def hexChars : List Char :=
  (List.range 16).map (fun n => if n < 10 then Char.ofNat (48 + n) else Char.ofNat (87 + n))

/-- The n-th lowercase hex digit (n < 16). -/
def hexDigit (n : Nat) : Char := hexChars.getD n '0'

/-- Fixed-width lowercase hexadecimal rendering of n, most significant
digit first. -/
def hexPad (n width : Nat) : List Char :=
  (List.range width).reverse.map (fun i => hexDigit (n / 16 ^ i % 16))

/-- Python's backslashreplace escape for a single character: ASCII characters
are kept; a non-ASCII codepoint becomes \xhh, \uhhhh or \Uhhhhhhhh. -/
def escapeChar (c : Char) : List Char :=
  if c.toNat < 128 then [c]
  else if c.toNat < 256 then '\\' :: 'x' :: hexPad c.toNat 2
  else if c.toNat < 65536 then '\\' :: 'u' :: hexPad c.toNat 4
  else '\\' :: 'U' :: hexPad c.toNat 8

/-- Embeds _encode_for_display (lines 62-70):
text.encode(ascii, errors=backslashreplace).decode(utf-8).  The encode step
keeps ASCII bytes and replaces every other character by its backslash escape;
the result is pure ASCII, so the utf-8 decode is the identity on it. -/
def encode_for_display (s : String) : String :=
  String.mk (s.data.flatMap escapeChar)

/-- Parse input handed to ET.fromstring on the success paths (sign_in line
127, get_workbook_id line 161, get_datasource_id line 185, get_project_id
lines 211 and 224, get_schedule_id line 247, get_extract_refresh_id line 269,
run_extract_refresh_task line 308): the raw response text is first passed
through _encode_for_display. -/
def successPathParseInput (raw : String) : String :=
  encode_for_display raw

/-- Parse input handed to ET.fromstring on the error path (_check_status
line 82): server_response.text is parsed directly. -/
def checkStatusParseInput (raw : String) : String :=
  raw

/-- The error-envelope view of a response body, as read by _check_status
(lines 85-87): an optional t:error element carrying an optional code
attribute, and optional t:summary / t:detail elements whose text (.text,
which Python may give as None for an empty element) is an Option String. -/
structure ErrorEnvelope where
  error : Option (Option String)
  summary : Option (Option String)
  detail : Option (Option String)
  deriving DecidableEq, Repr

/-- Python str() of a possibly-None text value, as produced by
str.format on an element's .text. -/
def pyStr : Option String → String
  | none => "None"
  | some s => s

/-- Line 90: error_element.get(code, unknown) when the element is present,
the literal placeholder otherwise. -/
def errCode (env : ErrorEnvelope) : String :=
  match env.error with
  | none => "unknown code"
  | some c => c.getD "unknown"

/-- Line 91: summary_element.text when present, placeholder otherwise. -/
def errSummary (env : ErrorEnvelope) : String :=
  match env.summary with
  | none => "unknown summary"
  | some t => pyStr t

/-- Line 92: detail_element.text when present, placeholder otherwise. -/
def errDetail (env : ErrorEnvelope) : String :=
  match env.detail with
  | none => "unknown detail"
  | some t => pyStr t

/-- Embeds _check_status (lines 73-95): when the status code differs from
the expected success code, the body's error envelope is formatted into the
ApiCallError message; otherwise nothing is raised (none). -/
def check_status (status success_code : Nat) (env : ErrorEnvelope) : Option String :=
  if status ≠ success_code then
    some (errCode env ++ ": " ++ errSummary env ++ " - " ++ errDetail env)
  else
    none

/-- The success-body view of the sign-in response (lines 130-132): the
optional t:credentials element with its optional token attribute, and the
optional t:site / t:user elements with their optional id attributes. -/
structure SignInBody where
  credentials : Option (Option String)
  site : Option (Option String)
  user : Option (Option String)
  deriving DecidableEq, Repr

/-- A received HTTP response for sign_in: status code, the error-envelope
parse view of the body (used when the status is not 200), and the
success-body parse view (used when it is). -/
structure SignInResponse where
  status : Nat
  errEnv : ErrorEnvelope
  body : SignInBody
  deriving DecidableEq, Repr

/-- Embeds sign_in (lines 98-133) from the point the response is received:
_check_status with expected code 200, then token = credentials.get(token),
site_id = site.get(id), user_id = user.get(id).  Each find that returns
None makes the following .get call raise AttributeError. -/
def sign_in (resp : SignInResponse) : PyOutcome (Option String × Option String × Option String) :=
  match check_status resp.status 200 resp.errEnv with
  | some msg => .apiCallError msg
  | none =>
    match resp.body.credentials with
    | none => .attributeError
    | some token =>
      match resp.body.site with
      | none => .attributeError
      | some site_id =>
        match resp.body.user with
        | none => .attributeError
        | some user_id => .ok (token, site_id, user_id)

/-- A decoded t:workbook element (lines 163-168): id and name attributes,
and the optional nested t:project element with its optional id attribute. -/
structure Workbook where
  id : Option String
  name : Option String
  project : Option (Option String)
  deriving DecidableEq, Repr

/-- The scan loop of get_workbook_id (lines 164-170): for each workbook
whose name attribute equals workbook_name, dereference its nested project
element (AttributeError when absent) and return the workbook id when the
project id equals project_id, otherwise keep scanning; LookupError when the
scan finds nothing. -/
def get_workbook_id (workbooks : List Workbook) (project_id : Option String)
    (workbook_name : String) : PyOutcome (Option String) :=
  match workbooks with
  | [] => .lookupError ("Workbook named '" ++ workbook_name ++ "' not found.")
  | w :: rest =>
    if w.name = some workbook_name then
      match w.project with
      | none => .attributeError
      | some source_project_id =>
        if source_project_id = project_id then .ok w.id
        else get_workbook_id rest project_id workbook_name
    else get_workbook_id rest project_id workbook_name

/-- A decoded t:datasource element (lines 187-192), same shape as a
workbook element. -/
structure Datasource where
  id : Option String
  name : Option String
  project : Option (Option String)
  deriving DecidableEq, Repr

/-- The scan loop of get_datasource_id (lines 188-194), identical in
structure to the workbook scan. -/
def get_datasource_id (datasources : List Datasource) (project_id : Option String)
    (datasource_name : String) : PyOutcome (Option String) :=
  match datasources with
  | [] => .lookupError ("Datasource named '" ++ datasource_name ++ "' not found.")
  | d :: rest =>
    if d.name = some datasource_name then
      match d.project with
      | none => .attributeError
      | some source_project_id =>
        if source_project_id = project_id then .ok d.id
        else get_datasource_id rest project_id datasource_name
    else get_datasource_id rest project_id datasource_name

/-- A decoded t:project element (lines 217, 228-230): id and name
attributes. -/
structure Project where
  id : Option String
  name : Option String
  deriving DecidableEq, Repr

/-- Line 215: max_page = int(math.ceil(total_projects / page_size)) with
page_size = 100, under Python 3 true division: the ceiling of
total / 100, which for naturals is (total + 99) / 100. -/
def maxPage (total_projects : Nat) : Nat :=
  (total_projects + 99) / 100

/-- The concatenation built by get_project_id (lines 217-225): the page-1
project elements, extended by the elements of pages 2 .. max_page fetched
in order (range(2, max_page + 1)). -/
def gatheredProjects (pages : Nat → List Project) (total_projects : Nat) : List Project :=
  pages 1 ++ (List.range' 2 (maxPage total_projects - 1)).flatMap pages

/-- The scan loop of get_project_id (lines 228-232): first project whose
name attribute equals dest_project wins; LookupError otherwise. -/
def scanProjects (projects : List Project) (dest_project : String) : PyOutcome (Option String) :=
  match projects with
  | [] => .lookupError ("Project named '" ++ dest_project ++ "' was not found on server")
  | p :: rest =>
    if p.name = some dest_project then .ok p.id
    else scanProjects rest dest_project

/-- Embeds get_project_id (lines 196-232) from the point the pages are
received: the server is a function from page number to that page's decoded
project elements, and total_projects is the totalAvailable attribute read
from page 1's pagination element. -/
def get_project_id (pages : Nat → List Project) (total_projects : Nat)
    (dest_project : String) : PyOutcome (Option String) :=
  scanProjects (gatheredProjects pages total_projects) dest_project

/-- A decoded t:schedule element (lines 249-252): id and name attributes. -/
structure Schedule where
  id : Option String
  name : Option String
  deriving DecidableEq, Repr

/-- Embeds the scan loop of get_schedule_id (lines 250-254). -/
def get_schedule_id (schedules : List Schedule) (schedule_name : String) :
    PyOutcome (Option String) :=
  match schedules with
  | [] => .lookupError ("Schedule named '" ++ schedule_name ++ "' not found.")
  | s :: rest =>
    if s.name = some schedule_name then .ok s.id
    else get_schedule_id rest schedule_name

/-- The object_type argument of get_extract_refresh_id; main only ever
passes the strings workbook and datasource (lines 350-354). -/
inductive ObjectType where
  | workbook
  | datasource
  deriving DecidableEq, Repr

/-- A decoded t:task element (lines 272-275): the optional t:schedule,
t:workbook, t:datasource and t:extractRefresh children, each carrying an
optional id attribute. -/
structure Task where
  schedule : Option (Option String)
  workbook : Option (Option String)
  datasource : Option (Option String)
  extractRefresh : Option (Option String)
  deriving DecidableEq, Repr

/-- Line 274: task.find of the t:{object_type} child. -/
def Task.child (t : Task) : ObjectType → Option (Option String)
  | .workbook => t.workbook
  | .datasource => t.datasource

/-- The scan loop of get_extract_refresh_id (lines 272-281), with Python's
left-to-right short-circuit on line 277: obj is not None is tested first,
then schedule.get(id) == schedule_id (AttributeError when the schedule
child is absent), then obj.get(id) == object_id; on a match,
extractRefresh.get(id) (AttributeError when that child is absent). -/
def get_extract_refresh_id (tasks : List Task) (schedule_id : Option String)
    (object_type : ObjectType) (object_id : Option String) : PyOutcome (Option String) :=
  match tasks with
  | [] => .lookupError ("Extract with schedule_id '" ++ pyStr schedule_id ++
      "' and object_id '" ++ pyStr object_id ++ "' not found.")
  | t :: rest =>
    match t.child object_type with
    | none => get_extract_refresh_id rest schedule_id object_type object_id
    | some obj_id_attr =>
      match t.schedule with
      | none => .attributeError
      | some sched_id_attr =>
        if sched_id_attr = schedule_id ∧ obj_id_attr = object_id then
          match t.extractRefresh with
          | none => .attributeError
          | some e => .ok e
        else get_extract_refresh_id rest schedule_id object_type object_id

/-- The condition of line 277 on a task, written at the element level: the
object-type child exists with id attribute equal to object_id, and the
schedule child's id attribute equals schedule_id. -/
def taskMatches (schedule_id object_id : Option String) (object_type : ObjectType)
    (t : Task) : Prop :=
  t.child object_type = some object_id ∧ t.schedule = some schedule_id

instance (schedule_id object_id : Option String) (object_type : ObjectType) (t : Task) :
    Decidable (taskMatches schedule_id object_id object_type t) := by
  unfold taskMatches; infer_instance

/-- The outcomes main observes from its seven pipeline stages, in program
order (lines 342-371): sign_in, get_project_id, the object lookup
(get_datasource_id or get_workbook_id by object_type), get_schedule_id,
get_extract_refresh_id, run_extract_refresh_task, sign_out.  Modelling the
stages by their outcomes lets the control flow of main be stated without
the network. -/
structure PipelineEnv where
  signInResult : PyOutcome (Option String × Option String × Option String)
  projectResult : PyOutcome (Option String)
  objectResult : PyOutcome (Option String)
  scheduleResult : PyOutcome (Option String)
  taskResult : PyOutcome (Option String)
  runNowResult : PyOutcome (Option String)
  signOutResult : PyOutcome Unit
  deriving Repr

/-- Embeds the straight-line control flow of main (lines 340-371): each
stage runs only if every earlier stage returned normally; any raised
exception propagates out of main immediately, past the sign_out call on
line 371.  Returns the final outcome together with the number of times
sign_out was invoked during the run. -/
def mainRun (env : PipelineEnv) : PyOutcome (Option String) × Nat :=
  match env.signInResult with
  | .ok _ =>
    match env.projectResult with
    | .ok _ =>
      match env.objectResult with
      | .ok _ =>
        match env.scheduleResult with
        | .ok _ =>
          match env.taskResult with
          | .ok _ =>
            match env.runNowResult with
            | .ok job_id =>
              -- line 371: sign_out is reached; it is invoked exactly here
              (match env.signOutResult with
               | .ok _ => (.ok job_id, 1)
               | .apiCallError m => (.apiCallError m, 1)
               | .lookupError m => (.lookupError m, 1)
               | .attributeError => (.attributeError, 1))
            | .apiCallError m => (.apiCallError m, 0)
            | .lookupError m => (.lookupError m, 0)
            | .attributeError => (.attributeError, 0)
          | .apiCallError m => (.apiCallError m, 0)
          | .lookupError m => (.lookupError m, 0)
          | .attributeError => (.attributeError, 0)
        | .apiCallError m => (.apiCallError m, 0)
        | .lookupError m => (.lookupError m, 0)
        | .attributeError => (.attributeError, 0)
      | .apiCallError m => (.apiCallError m, 0)
      | .lookupError m => (.lookupError m, 0)
      | .attributeError => (.attributeError, 0)
    | .apiCallError m => (.apiCallError m, 0)
    | .lookupError m => (.lookupError m, 0)
    | .attributeError => (.attributeError, 0)
  | .apiCallError m => (.apiCallError m, 0)
  | .lookupError m => (.lookupError m, 0)
  | .attributeError => (.attributeError, 0)

/-- Number of sign_out invocations in a run of main. -/
def signOutCount (env : PipelineEnv) : Nat := (mainRun env).2

/-! Helper lemmas about the backslashreplace encoding. -/

theorem hexDigit_toNat_lt (n : Nat) : (hexDigit n).toNat < 128 := by
  unfold hexDigit
  rcases Nat.lt_or_ge n 16 with h | h
  · unfold hexChars
    interval_cases n <;> decide
  · rw [List.getD_eq_getElem?_getD, List.getElem?_eq_none (by simpa [hexChars] using h)]
    decide

theorem hexPad_ascii (n w : Nat) : ∀ c ∈ hexPad n w, c.toNat < 128 := by
  intro c hc
  unfold hexPad at hc
  simp only [List.mem_map] at hc
  obtain ⟨i, -, rfl⟩ := hc
  exact hexDigit_toNat_lt _

theorem escapeChar_ascii (ch : Char) : ∀ c ∈ escapeChar ch, c.toNat < 128 := by
  intro c hc
  unfold escapeChar at hc
  split_ifs at hc with h1 h2 h3 <;>
    simp only [List.mem_singleton, List.mem_cons] at hc
  · rcases hc with rfl | hc
    · exact h1
    · simp at hc
  · rcases hc with rfl | rfl | hc
    · decide
    · decide
    · exact hexPad_ascii _ _ _ hc
  · rcases hc with rfl | rfl | hc
    · decide
    · decide
    · exact hexPad_ascii _ _ _ hc
  · rcases hc with rfl | rfl | hc
    · decide
    · decide
    · exact hexPad_ascii _ _ _ hc

theorem escapeChar_of_ascii {c : Char} (h : c.toNat < 128) : escapeChar c = [c] := by
  unfold escapeChar
  rw [if_pos h]

theorem escapeChar_head_backslash {c : Char} (h : 128 ≤ c.toNat) :
    (escapeChar c).head? = some '\\' := by
  unfold escapeChar
  rw [if_neg (by omega)]
  split_ifs <;> rfl

theorem encode_for_display_mem_ascii (s : String) :
    ∀ c ∈ (encode_for_display s).data, c.toNat < 128 := by
  intro c hc
  have hc' : c ∈ s.data.flatMap escapeChar := hc
  rw [List.mem_flatMap] at hc'
  obtain ⟨a, -, ha⟩ := hc'
  exact escapeChar_ascii a c ha

theorem encode_for_display_of_ascii (s : String) (h : ∀ c ∈ s.data, c.toNat < 128) :
    encode_for_display s = s := by
  cases s with
  | mk l =>
    unfold encode_for_display
    congr 1
    induction l with
    | nil => rfl
    | cons c rest ih =>
      rw [List.flatMap_cons, escapeChar_of_ascii (h c (by simp)),
        ih (fun x hx => h x (List.mem_cons_of_mem _ hx))]
      rfl

/-- Claim C10: the sanitization function is the identity on ASCII input, and on
every input it produces an ASCII-only output, obtained by keeping ASCII
characters and replacing each non-ASCII character by a backslash-escape
placeholder. -/
theorem encode_for_display_ascii_spec (s : String) :
    ((∀ c ∈ s.data, c.toNat < 128) → encode_for_display s = s) ∧
    (∀ c ∈ (encode_for_display s).data, c.toNat < 128) ∧
    (∀ c ∈ s.data, 128 ≤ c.toNat → (escapeChar c).head? = some '\\') ∧
    encode_for_display s = String.mk (s.data.flatMap escapeChar) :=
  ⟨encode_for_display_of_ascii s, encode_for_display_mem_ascii s,
    fun _ _ h => escapeChar_head_backslash h, rfl⟩

/-- Witness for C10 at a concrete ASCII string and a concrete non-ASCII one. -/
theorem encode_for_display_ascii_spec_witness :
    encode_for_display (String.mk ['a', 'b', 'c']) = String.mk ['a', 'b', 'c'] ∧
    (escapeChar (Char.ofNat 233)).head? = some '\\' :=
  ⟨(encode_for_display_ascii_spec (String.mk ['a', 'b', 'c'])).1 (by decide),
    ((encode_for_display_ascii_spec (String.mk [Char.ofNat 233])).2.2.1
      (Char.ofNat 233) (by decide) (by decide))⟩

/-- Claim C7 counterexample: on the error path, _check_status hands the raw
response text to ET.fromstring unsanitized; for the one-character non-ASCII
text U+00E9 the parse input differs from the sanitized text and still
contains a non-ASCII character. -/
theorem check_status_parse_input_unsanitized :
    checkStatusParseInput (String.mk [Char.ofNat 233]) ≠
      encode_for_display (String.mk [Char.ofNat 233]) ∧
    ¬ (∀ c ∈ (checkStatusParseInput (String.mk [Char.ofNat 233])).data, c.toNat < 128) := by
  decide

/-- Claim C7 (amended): the success-path call sites parse the sanitized
response text, which is ASCII-only, but the error path of _check_status
parses the raw response text unchanged, with no sanitization. -/
theorem parse_input_sanitization (raw : String) :
    successPathParseInput raw = encode_for_display raw ∧
    (∀ c ∈ (successPathParseInput raw).data, c.toNat < 128) ∧
    checkStatusParseInput raw = raw :=
  ⟨rfl, encode_for_display_mem_ascii raw, rfl⟩

/-- Witness for C7's amended theorem at a concrete non-ASCII text. -/
theorem parse_input_sanitization_witness :
    successPathParseInput (String.mk [Char.ofNat 233]) =
      String.mk ['\\', 'x', 'e', '9'] ∧
    checkStatusParseInput (String.mk [Char.ofNat 233]) = String.mk [Char.ofNat 233] := by
  refine ⟨?_, (parse_input_sanitization (String.mk [Char.ofNat 233])).2.2⟩
  rw [(parse_input_sanitization (String.mk [Char.ofNat 233])).1]
  decide

/-- Claim C5: whenever the response status differs from the expected success
code, _check_status raises ApiCallError with the message code: summary -
detail built from the body's error envelope, substituting the literal
placeholders unknown code / unknown summary / unknown detail for an absent
error, summary or detail element; when the status equals the expected code
nothing is raised. -/
theorem check_status_error_envelope (status success_code : Nat) (env : ErrorEnvelope) :
    (status = success_code → check_status status success_code env = none) ∧
    (status ≠ success_code →
      check_status status success_code env =
        some (errCode env ++ ": " ++ errSummary env ++ " - " ++ errDetail env)) ∧
    (env.error = none → errCode env = "unknown code") ∧
    (env.summary = none → errSummary env = "unknown summary") ∧
    (env.detail = none → errDetail env = "unknown detail") := by
  refine ⟨fun h => ?_, fun h => ?_, fun h => ?_, fun h => ?_, fun h => ?_⟩
  · simp [check_status, h]
  · simp [check_status, h]
  · simp [errCode, h]
  · simp [errSummary, h]
  · simp [errDetail, h]

/-- Witness for C5: the spec's sign-in example, with the detail element
absent, and a matching status raising nothing. -/
theorem check_status_error_envelope_witness :
    check_status 401 200 ⟨some (some "400006"), some (some "Invalid credentials"), none⟩ =
      some "400006: Invalid credentials - unknown detail" ∧
    check_status 200 200 ⟨none, none, none⟩ = none := by
  constructor
  · rw [(check_status_error_envelope 401 200
      ⟨some (some "400006"), some (some "Invalid credentials"), none⟩).2.1 (by decide)]
    decide
  · exact (check_status_error_envelope 200 200 ⟨none, none, none⟩).1 rfl

/-- Claim C6 counterexample: a 200 sign-in response whose body has no
credentials element makes sign_in abort with an AttributeError, not with
the claimed ApiCallError. -/
theorem sign_in_missing_element_not_api_call_error :
    sign_in ⟨200, ⟨none, none, none⟩, ⟨none, some (some "site-id"), some (some "user-id")⟩⟩ =
      PyOutcome.attributeError ∧
    (sign_in ⟨200, ⟨none, none, none⟩,
        ⟨none, some (some "site-id"), some (some "user-id")⟩⟩).isApiCallError = false := by
  decide

/-- Claim C6 (amended): sign_in POSTs the credentials envelope and expects
HTTP 200; on a non-200 status it raises ApiCallError with the decoded error
envelope; on a 200 response missing the credentials, site or user element it
aborts with an AttributeError (dereferencing None), not ApiCallError; on a
200 response with all three elements present it returns their token and id
attributes. -/
theorem sign_in_error_paths (resp : SignInResponse) :
    (resp.status ≠ 200 →
      sign_in resp = .apiCallError
        (errCode resp.errEnv ++ ": " ++ errSummary resp.errEnv ++ " - " ++
          errDetail resp.errEnv)) ∧
    (resp.status = 200 →
      (resp.body.credentials = none ∨ resp.body.site = none ∨ resp.body.user = none) →
      sign_in resp = .attributeError) ∧
    (∀ token site_id user_id, resp.status = 200 →
      resp.body = ⟨some token, some site_id, some user_id⟩ →
      sign_in resp = .ok (token, site_id, user_id)) := by
  obtain ⟨st, env, creds, site, user⟩ := resp
  refine ⟨fun h => ?_, fun h hmiss => ?_, fun token site_id user_id h hbody => ?_⟩
  · simp [sign_in, check_status, h]
  · subst h
    simp only [sign_in, check_status, ne_eq, not_true_eq_false, if_false]
    rcases hmiss with h1 | h1 | h1 <;> simp only at h1 <;> rw [h1] <;> cases creds <;>
      cases site <;> simp
  · subst h
    cases hbody
    simp [sign_in, check_status]

/-- Witness for C6's amended theorem: a concrete 401 response raises
ApiCallError, a concrete complete 200 response returns the triple. -/
theorem sign_in_error_paths_witness :
    sign_in ⟨401, ⟨some (some "400006"), some (some "Invalid credentials"),
        some (some "Login failed")⟩, ⟨none, none, none⟩⟩ =
      .apiCallError "400006: Invalid credentials - Login failed" ∧
    sign_in ⟨200, ⟨none, none, none⟩,
        ⟨some (some "tok"), some (some "site-id"), some (some "user-id")⟩⟩ =
      .ok (some "tok", some "site-id", some "user-id") := by
  constructor
  · rw [(sign_in_error_paths ⟨401, ⟨some (some "400006"), some (some "Invalid credentials"),
      some (some "Login failed")⟩, ⟨none, none, none⟩⟩).1 (by decide)]
    decide
  · exact (sign_in_error_paths ⟨200, ⟨none, none, none⟩,
      ⟨some (some "tok"), some (some "site-id"), some (some "user-id")⟩⟩).2.2
      (some "tok") (some "site-id") (some "user-id") rfl rfl

/-! First-match characterizations of the scan loops. -/

theorem scanProjects_eq_find (projects : List Project) (dest_project : String) :
    scanProjects projects dest_project =
      match projects.find? (fun p => p.name == some dest_project) with
      | some p => .ok p.id
      | none => .lookupError ("Project named '" ++ dest_project ++ "' was not found on server") := by
  induction projects with
  | nil => rfl
  | cons p rest ih =>
    by_cases h : p.name = some dest_project
    · rw [List.find?_cons_of_pos _ (by simp [h])]
      simp [scanProjects, h]
    · rw [List.find?_cons_of_neg _ (by simp [h])]
      simpa [scanProjects, h] using ih

theorem get_schedule_id_eq_find (schedules : List Schedule) (schedule_name : String) :
    get_schedule_id schedules schedule_name =
      match schedules.find? (fun s => s.name == some schedule_name) with
      | some s => .ok s.id
      | none => .lookupError ("Schedule named '" ++ schedule_name ++ "' not found.") := by
  induction schedules with
  | nil => rfl
  | cons s rest ih =>
    by_cases h : s.name = some schedule_name
    · rw [List.find?_cons_of_pos _ (by simp [h])]
      simp [get_schedule_id, h]
    · rw [List.find?_cons_of_neg _ (by simp [h])]
      simpa [get_schedule_id, h] using ih

theorem get_workbook_id_eq_find (workbooks : List Workbook) (project_id : Option String)
    (workbook_name : String)
    (hproj : ∀ w ∈ workbooks, w.name = some workbook_name → w.project.isSome) :
    get_workbook_id workbooks project_id workbook_name =
      match workbooks.find? (fun w =>
          w.name == some workbook_name && w.project == some project_id) with
      | some w => .ok w.id
      | none => .lookupError ("Workbook named '" ++ workbook_name ++ "' not found.") := by
  induction workbooks with
  | nil => rfl
  | cons w rest ih =>
    have hrest := fun x hx => hproj x (List.mem_cons_of_mem _ hx)
    by_cases hname : w.name = some workbook_name
    · obtain ⟨spid, hsp⟩ :=
        Option.isSome_iff_exists.mp (hproj w (List.mem_cons_self _ _) hname)
      by_cases hpid : spid = project_id
      · subst hpid
        rw [List.find?_cons_of_pos _ (by simp [hname, hsp])]
        simp [get_workbook_id, hname, hsp]
      · rw [List.find?_cons_of_neg _ (by simp [hname, hsp, hpid])]
        simpa [get_workbook_id, hname, hsp, hpid] using ih hrest
    · rw [List.find?_cons_of_neg _ (by simp [hname])]
      simpa [get_workbook_id, hname] using ih hrest

theorem get_datasource_id_eq_find (datasources : List Datasource)
    (project_id : Option String) (datasource_name : String)
    (hproj : ∀ d ∈ datasources, d.name = some datasource_name → d.project.isSome) :
    get_datasource_id datasources project_id datasource_name =
      match datasources.find? (fun d =>
          d.name == some datasource_name && d.project == some project_id) with
      | some d => .ok d.id
      | none => .lookupError ("Datasource named '" ++ datasource_name ++ "' not found.") := by
  induction datasources with
  | nil => rfl
  | cons d rest ih =>
    have hrest := fun x hx => hproj x (List.mem_cons_of_mem _ hx)
    by_cases hname : d.name = some datasource_name
    · obtain ⟨spid, hsp⟩ :=
        Option.isSome_iff_exists.mp (hproj d (List.mem_cons_self _ _) hname)
      by_cases hpid : spid = project_id
      · subst hpid
        rw [List.find?_cons_of_pos _ (by simp [hname, hsp])]
        simp [get_datasource_id, hname, hsp]
      · rw [List.find?_cons_of_neg _ (by simp [hname, hsp, hpid])]
        simpa [get_datasource_id, hname, hsp, hpid] using ih hrest
    · rw [List.find?_cons_of_neg _ (by simp [hname])]
      simpa [get_datasource_id, hname] using ih hrest

theorem get_extract_refresh_id_eq_find (tasks : List Task) (schedule_id : Option String)
    (object_type : ObjectType) (object_id : Option String)
    (hsched : ∀ t ∈ tasks, (t.child object_type).isSome → t.schedule.isSome) :
    get_extract_refresh_id tasks schedule_id object_type object_id =
      match tasks.find? (fun t =>
          t.child object_type == some object_id && t.schedule == some schedule_id) with
      | some t =>
        (match t.extractRefresh with
         | some e => .ok e
         | none => .attributeError)
      | none => .lookupError ("Extract with schedule_id '" ++ pyStr schedule_id ++
          "' and object_id '" ++ pyStr object_id ++ "' not found.") := by
  induction tasks with
  | nil => rfl
  | cons t rest ih =>
    have hrest := fun x hx => hsched x (List.mem_cons_of_mem _ hx)
    cases hobj : t.child object_type with
    | none =>
      rw [List.find?_cons_of_neg _ (by simp [hobj])]
      simpa [get_extract_refresh_id, hobj] using ih hrest
    | some o =>
      obtain ⟨s, hs⟩ := Option.isSome_iff_exists.mp
        (hsched t (List.mem_cons_self _ _) (by simp [hobj]))
      by_cases hc : s = schedule_id ∧ o = object_id
      · rw [List.find?_cons_of_pos _
          (by simp only [hobj, hs, Bool.and_eq_true, beq_iff_eq, Option.some_inj]
              exact ⟨hc.2, hc.1⟩)]
        obtain ⟨h1, h2⟩ := hc
        subst h1
        subst h2
        simp [get_extract_refresh_id, hobj, hs]
        cases t.extractRefresh <;> rfl
      · rw [List.find?_cons_of_neg _
          (by simp only [hobj, hs, Bool.and_eq_true, beq_iff_eq, Option.some_inj]
              exact fun h => hc ⟨h.2, h.1⟩)]
        simpa [get_extract_refresh_id, hobj, hs, hc] using ih hrest

/-- Claim C4: when a workbook list holds two same-named workbooks under
different projects, the lookup scoped to project_id can only return the id of
a workbook whose nested project id equals project_id; a name match whose
project does not match is skipped and the scan continues, so a later
correctly-scoped workbook is still found, and with no scoped match the scan
raises the not-found LookupError. -/
theorem get_workbook_id_project_scoped (workbooks : List Workbook)
    (project_id : Option String) (workbook_name : String)
    (hproj : ∀ w ∈ workbooks, w.name = some workbook_name → w.project.isSome) :
    (∀ i, get_workbook_id workbooks project_id workbook_name = .ok i →
      ∃ w ∈ workbooks, w.name = some workbook_name ∧ w.project = some project_id ∧
        w.id = i) ∧
    ((∃ w ∈ workbooks, w.name = some workbook_name ∧ w.project = some project_id) →
      ∃ i, get_workbook_id workbooks project_id workbook_name = .ok i) ∧
    ((∀ w ∈ workbooks, ¬(w.name = some workbook_name ∧ w.project = some project_id)) →
      get_workbook_id workbooks project_id workbook_name =
        .lookupError ("Workbook named '" ++ workbook_name ++ "' not found.")) := by
  have hchar := get_workbook_id_eq_find workbooks project_id workbook_name hproj
  refine ⟨?_, ?_, ?_⟩
  · intro i h
    rw [hchar] at h
    cases hf : workbooks.find? (fun w =>
        w.name == some workbook_name && w.project == some project_id) with
    | none => rw [hf] at h; cases h
    | some w =>
      rw [hf] at h
      have hw := List.mem_of_find?_eq_some hf
      have hp := List.find?_some hf
      simp only [Bool.and_eq_true, beq_iff_eq] at hp
      cases h
      exact ⟨w, hw, hp.1, hp.2, rfl⟩
  · rintro ⟨w, hw, hn, hp⟩
    rw [hchar]
    have hsome : (workbooks.find? (fun w =>
        w.name == some workbook_name && w.project == some project_id)).isSome :=
      List.find?_isSome.mpr ⟨w, hw, by simp [hn, hp]⟩
    obtain ⟨w', hw'⟩ := Option.isSome_iff_exists.mp hsome
    rw [hw']
    exact ⟨w'.id, rfl⟩
  · intro hall
    rw [hchar]
    have hnone : workbooks.find? (fun w =>
        w.name == some workbook_name && w.project == some project_id) = none := by
      rw [List.find?_eq_none]
      intro w hw
      simp only [Bool.and_eq_true, beq_iff_eq, not_and]
      exact fun hn hp => hall w hw ⟨hn, hp⟩
    rw [hnone]

/-- Witness for C4: the spec's example of Book1 under p1 and Book1 under p2;
resolving scoped to p2 returns the p2-scoped id w2, never w1. -/
theorem get_workbook_id_project_scoped_witness :
    (∃ w ∈ [(⟨some "w1", some "Book1", some (some "p1")⟩ : Workbook),
        ⟨some "w2", some "Book1", some (some "p2")⟩],
      w.name = some "Book1" ∧ w.project = some (some "p2") ∧ w.id = some "w2") ∧
    get_workbook_id [⟨some "w1", some "Book1", some (some "p1")⟩,
        ⟨some "w2", some "Book1", some (some "p2")⟩] (some "p2") "Book1" =
      .ok (some "w2") := by
  have h := (get_workbook_id_project_scoped
    [⟨some "w1", some "Book1", some (some "p1")⟩,
     ⟨some "w2", some "Book1", some (some "p2")⟩] (some "p2") "Book1"
    (by decide)).1 (some "w2") (by decide)
  exact ⟨h, by decide⟩

/-- Claim C3: the extract-refresh lookup returns the extractRefresh child's
id of a task exactly when that task's schedule child's id equals schedule_id
and its object-type child exists with id equal to object_id; when no task
satisfies both conditions it raises the not-found LookupError. -/
theorem get_extract_refresh_id_match_spec (tasks : List Task)
    (schedule_id : Option String) (object_type : ObjectType) (object_id : Option String)
    (hsched : ∀ t ∈ tasks, (t.child object_type).isSome → t.schedule.isSome)
    (hext : ∀ t ∈ tasks, t.extractRefresh.isSome) :
    (∀ e, get_extract_refresh_id tasks schedule_id object_type object_id = .ok e →
      ∃ t ∈ tasks, taskMatches schedule_id object_id object_type t ∧
        t.extractRefresh = some e) ∧
    ((∃ t ∈ tasks, taskMatches schedule_id object_id object_type t) →
      ∃ e, get_extract_refresh_id tasks schedule_id object_type object_id = .ok e) ∧
    ((∀ t ∈ tasks, ¬ taskMatches schedule_id object_id object_type t) →
      get_extract_refresh_id tasks schedule_id object_type object_id =
        .lookupError ("Extract with schedule_id '" ++ pyStr schedule_id ++
          "' and object_id '" ++ pyStr object_id ++ "' not found.")) := by
  have hchar := get_extract_refresh_id_eq_find tasks schedule_id object_type object_id hsched
  refine ⟨?_, ?_, ?_⟩
  · intro e h
    rw [hchar] at h
    cases hf : tasks.find? (fun t =>
        t.child object_type == some object_id && t.schedule == some schedule_id) with
    | none => rw [hf] at h; cases h
    | some t =>
      rw [hf] at h
      have h' : (match t.extractRefresh with
          | some e => PyOutcome.ok e
          | none => PyOutcome.attributeError) = PyOutcome.ok e := h
      have ht := List.mem_of_find?_eq_some hf
      have hp := List.find?_some hf
      simp only [Bool.and_eq_true, beq_iff_eq] at hp
      cases hr : t.extractRefresh with
      | none => rw [hr] at h'; cases h'
      | some e' =>
        rw [hr] at h'
        cases h'
        exact ⟨t, ht, ⟨hp.1, hp.2⟩, hr⟩
  · rintro ⟨t, ht, hm, hm'⟩
    rw [hchar]
    have hsome : (tasks.find? (fun t =>
        t.child object_type == some object_id && t.schedule == some schedule_id)).isSome :=
      List.find?_isSome.mpr ⟨t, ht, by simp [hm, hm']⟩
    obtain ⟨t', ht'⟩ := Option.isSome_iff_exists.mp hsome
    rw [ht']
    obtain ⟨e, he⟩ := Option.isSome_iff_exists.mp
      (hext t' (List.mem_of_find?_eq_some ht'))
    refine ⟨e, ?_⟩
    show (match t'.extractRefresh with
      | some e => PyOutcome.ok e
      | none => PyOutcome.attributeError) = PyOutcome.ok e
    rw [he]
  · intro hall
    rw [hchar]
    have hnone : tasks.find? (fun t =>
        t.child object_type == some object_id && t.schedule == some schedule_id) = none := by
      rw [List.find?_eq_none]
      intro t ht
      simp only [Bool.and_eq_true, beq_iff_eq, not_and]
      exact fun h1 h2 => hall t ht ⟨h1, h2⟩
    rw [hnone]

/-- Witness for C3: the spec's example task with schedule s1, workbook w1 and
extractRefresh e1; resolving (s1, workbook, w1) returns e1, and resolving
with object id w2 raises the not-found LookupError. -/
theorem get_extract_refresh_id_match_spec_witness :
    (∃ t ∈ [(⟨some (some "s1"), some (some "w1"), none, some (some "e1")⟩ : Task)],
      taskMatches (some "s1") (some "w1") .workbook t ∧
        t.extractRefresh = some (some "e1")) ∧
    get_extract_refresh_id
      [(⟨some (some "s1"), some (some "w1"), none, some (some "e1")⟩ : Task)]
      (some "s1") .workbook (some "w2") =
      .lookupError "Extract with schedule_id 's1' and object_id 'w2' not found." := by
  constructor
  · exact (get_extract_refresh_id_match_spec
      [(⟨some (some "s1"), some (some "w1"), none, some (some "e1")⟩ : Task)]
      (some "s1") .workbook (some "w1") (by decide) (by decide)).1
      (some "e1") (by decide)
  · have h := (get_extract_refresh_id_match_spec
      [(⟨some (some "s1"), some (some "w1"), none, some (some "e1")⟩ : Task)]
      (some "s1") .workbook (some "w2") (by decide) (by decide)).2.2 (by decide)
    rw [h]
    decide

/-- Claim C9: only the object-type child is presence-checked before
dereferencing; under the precondition that every task has a schedule child
and every task has an extractRefresh child the lookup is total (an id or the
not-found LookupError), while concrete task lists violating the unchecked
dereferences abort with an AttributeError instead of the typed error. -/
theorem get_extract_refresh_id_presence_checks (tasks : List Task)
    (schedule_id : Option String) (object_type : ObjectType) (object_id : Option String)
    (hsched : ∀ t ∈ tasks, t.schedule.isSome)
    (hext : ∀ t ∈ tasks, t.extractRefresh.isSome) :
    ((∃ e, get_extract_refresh_id tasks schedule_id object_type object_id = .ok e) ∨
      get_extract_refresh_id tasks schedule_id object_type object_id =
        .lookupError ("Extract with schedule_id '" ++ pyStr schedule_id ++
          "' and object_id '" ++ pyStr object_id ++ "' not found.")) ∧
    get_extract_refresh_id [(⟨none, some (some "w1"), none, some (some "e1")⟩ : Task)]
      (some "s1") .workbook (some "w1") = .attributeError ∧
    get_extract_refresh_id [(⟨some (some "s1"), some (some "w1"), none, none⟩ : Task)]
      (some "s1") .workbook (some "w1") = .attributeError := by
  refine ⟨?_, by decide, by decide⟩
  rw [get_extract_refresh_id_eq_find tasks schedule_id object_type object_id
    (fun t ht _ => hsched t ht)]
  cases hf : tasks.find? (fun t =>
      t.child object_type == some object_id && t.schedule == some schedule_id) with
  | none => exact Or.inr rfl
  | some t =>
    obtain ⟨e, he⟩ := Option.isSome_iff_exists.mp (hext t (List.mem_of_find?_eq_some hf))
    refine Or.inl ⟨e, ?_⟩
    show (match t.extractRefresh with
      | some e => PyOutcome.ok e
      | none => PyOutcome.attributeError) = PyOutcome.ok e
    rw [he]

/-- Witness for C9 at a concrete single-task list meeting the precondition. -/
theorem get_extract_refresh_id_presence_checks_witness :
    (∃ e, get_extract_refresh_id
        [(⟨some (some "s1"), some (some "w1"), none, some (some "e1")⟩ : Task)]
        (some "s1") .workbook (some "w1") = .ok e) ∨
      get_extract_refresh_id
        [(⟨some (some "s1"), some (some "w1"), none, some (some "e1")⟩ : Task)]
        (some "s1") .workbook (some "w1") =
        .lookupError "Extract with schedule_id 's1' and object_id 'w1' not found." :=
  (get_extract_refresh_id_presence_checks
    [(⟨some (some "s1"), some (some "w1"), none, some (some "e1")⟩ : Task)]
    (some "s1") .workbook (some "w1") (by decide) (by decide)).1

/-- Claim C8: each name-based resolver scan (project, workbook, datasource,
schedule, extract-refresh task) deterministically returns the first match in
the decoded server-returned order (the find? of the scan predicate), and for
projects the scanned order is the page-1 elements followed by the elements
of pages 2 .. max_page in fetch order. -/
theorem resolvers_return_first_match
    (projects : List Project) (dest_project : String)
    (pages : Nat → List Project) (total_projects : Nat)
    (workbooks : List Workbook) (wb_project_id : Option String) (workbook_name : String)
    (hwb : ∀ w ∈ workbooks, w.name = some workbook_name → w.project.isSome)
    (datasources : List Datasource) (ds_project_id : Option String)
    (datasource_name : String)
    (hds : ∀ d ∈ datasources, d.name = some datasource_name → d.project.isSome)
    (schedules : List Schedule) (schedule_name : String)
    (tasks : List Task) (schedule_id object_id : Option String) (object_type : ObjectType)
    (hsched : ∀ t ∈ tasks, (t.child object_type).isSome → t.schedule.isSome) :
    (scanProjects projects dest_project =
      match projects.find? (fun p => p.name == some dest_project) with
      | some p => .ok p.id
      | none => .lookupError ("Project named '" ++ dest_project ++
          "' was not found on server")) ∧
    (get_project_id pages total_projects dest_project =
      scanProjects (pages 1 ++ (List.range' 2 (maxPage total_projects - 1)).flatMap pages)
        dest_project) ∧
    (get_workbook_id workbooks wb_project_id workbook_name =
      match workbooks.find? (fun w =>
          w.name == some workbook_name && w.project == some wb_project_id) with
      | some w => .ok w.id
      | none => .lookupError ("Workbook named '" ++ workbook_name ++ "' not found.")) ∧
    (get_datasource_id datasources ds_project_id datasource_name =
      match datasources.find? (fun d =>
          d.name == some datasource_name && d.project == some ds_project_id) with
      | some d => .ok d.id
      | none => .lookupError ("Datasource named '" ++ datasource_name ++
          "' not found.")) ∧
    (get_schedule_id schedules schedule_name =
      match schedules.find? (fun s => s.name == some schedule_name) with
      | some s => .ok s.id
      | none => .lookupError ("Schedule named '" ++ schedule_name ++ "' not found.")) ∧
    (get_extract_refresh_id tasks schedule_id object_type object_id =
      match tasks.find? (fun t =>
          t.child object_type == some object_id && t.schedule == some schedule_id) with
      | some t =>
        (match t.extractRefresh with
         | some e => .ok e
         | none => .attributeError)
      | none => .lookupError ("Extract with schedule_id '" ++ pyStr schedule_id ++
          "' and object_id '" ++ pyStr object_id ++ "' not found.")) :=
  ⟨scanProjects_eq_find projects dest_project, rfl,
    get_workbook_id_eq_find workbooks wb_project_id workbook_name hwb,
    get_datasource_id_eq_find datasources ds_project_id datasource_name hds,
    get_schedule_id_eq_find schedules schedule_name,
    get_extract_refresh_id_eq_find tasks schedule_id object_type object_id hsched⟩

/-- Witness for C8: duplicate matches for the project, workbook, datasource,
schedule and task scans; each resolver returns the first matching element's
id in list order. -/
theorem resolvers_return_first_match_witness :
    scanProjects [(⟨some "p1", some "Alpha"⟩ : Project), ⟨some "p2", some "Alpha"⟩]
      "Alpha" = .ok (some "p1") ∧
    get_workbook_id [(⟨some "w1", some "Book1", some (some "p1")⟩ : Workbook),
        ⟨some "w2", some "Book1", some (some "p1")⟩] (some "p1") "Book1" =
      .ok (some "w1") ∧
    get_datasource_id [(⟨some "d1", some "Data1", some (some "p1")⟩ : Datasource),
        ⟨some "d2", some "Data1", some (some "p1")⟩] (some "p1") "Data1" =
      .ok (some "d1") ∧
    get_schedule_id [(⟨some "s1", some "Daily"⟩ : Schedule), ⟨some "s2", some "Daily"⟩]
      "Daily" = .ok (some "s1") ∧
    get_extract_refresh_id
      [(⟨some (some "s1"), some (some "w1"), none, some (some "e1")⟩ : Task),
       ⟨some (some "s1"), some (some "w1"), none, some (some "e2")⟩]
      (some "s1") .workbook (some "w1") = .ok (some "e1") := by
  have h := resolvers_return_first_match
    [(⟨some "p1", some "Alpha"⟩ : Project), ⟨some "p2", some "Alpha"⟩] "Alpha"
    (fun _ => []) 0
    [(⟨some "w1", some "Book1", some (some "p1")⟩ : Workbook),
     ⟨some "w2", some "Book1", some (some "p1")⟩] (some "p1") "Book1" (by decide)
    [(⟨some "d1", some "Data1", some (some "p1")⟩ : Datasource),
     ⟨some "d2", some "Data1", some (some "p1")⟩] (some "p1") "Data1" (by decide)
    [(⟨some "s1", some "Daily"⟩ : Schedule), ⟨some "s2", some "Daily"⟩] "Daily"
    [(⟨some (some "s1"), some (some "w1"), none, some (some "e1")⟩ : Task),
     ⟨some (some "s1"), some (some "w1"), none, some (some "e2")⟩]
    (some "s1") (some "w1") .workbook (by decide)
  exact ⟨by rw [h.1]; decide, by rw [h.2.2.1]; decide, by rw [h.2.2.2.1]; decide,
    by rw [h.2.2.2.2.1]; decide, by rw [h.2.2.2.2.2]; decide⟩

/-! Pagination: the pages 1 .. max_page of a chunked full listing
concatenate back to the full listing. -/

theorem flatMap_range'_shift {α : Type} (f : Nat → List α) (s m : Nat) :
    (List.range' (s + 1) m).flatMap f =
      (List.range' s m).flatMap (fun p => f (p + 1)) := by
  induction m generalizing s with
  | zero => rfl
  | succ m ih =>
    rw [List.range'_succ, List.range'_succ, List.flatMap_cons, List.flatMap_cons, ih]

theorem chunks_cover (m : Nat) : ∀ l : List Project, l.length ≤ 100 * m →
    (List.range' 1 m).flatMap (fun p => (l.drop ((p - 1) * 100)).take 100) = l := by
  induction m with
  | zero =>
    intro l h
    have hnil : l = [] := List.length_eq_zero.mp (by omega)
    simp [hnil]
  | succ m ih =>
    intro l h
    rw [List.range'_succ, List.flatMap_cons]
    have h2 : (List.range' 2 m).flatMap (fun p => (l.drop ((p - 1) * 100)).take 100) =
        (List.range' 1 m).flatMap (fun p => ((l.drop 100).drop ((p - 1) * 100)).take 100) := by
      rw [flatMap_range'_shift]
      apply List.flatMap_congr
      intro p hp
      have hp1 : 1 ≤ p := (List.mem_range'_1.mp hp).1
      have harith : (p + 1 - 1) * 100 = 100 + (p - 1) * 100 := by omega
      rw [harith, ← List.drop_drop]
    rw [h2, ih (l.drop 100) (by rw [List.length_drop]; omega)]
    simp only [Nat.sub_self, Nat.zero_mul, List.drop_zero]
    exact List.take_append_drop 100 l

theorem maxPage_le_mul (total_projects : Nat) :
    total_projects ≤ 100 * maxPage total_projects := by
  unfold maxPage
  have hq := Nat.div_add_mod (total_projects + 99) 100
  have hr := Nat.mod_lt (total_projects + 99) (show 0 < 100 by norm_num)
  omega

theorem maxPage_eq_ceil (total_projects : Nat) :
    maxPage total_projects = ⌈(total_projects : ℚ) / 100⌉₊ := by
  rcases Nat.eq_zero_or_pos total_projects with rfl | hpos
  · simp [maxPage]
  · have hq := Nat.div_add_mod (total_projects + 99) 100
    have hr := Nat.mod_lt (total_projects + 99) (show 0 < 100 by norm_num)
    rw [eq_comm, Nat.ceil_eq_iff (by unfold maxPage; omega)]
    constructor
    · rw [lt_div_iff₀ (show (0:ℚ) < 100 by norm_num)]
      exact_mod_cast show (maxPage total_projects - 1) * 100 < total_projects by
        unfold maxPage; omega
    · rw [div_le_iff₀ (show (0:ℚ) < 100 by norm_num)]
      exact_mod_cast show total_projects ≤ maxPage total_projects * 100 by
        unfold maxPage; omega

theorem gatheredProjects_eq (full : List Project) (pages : Nat → List Project)
    (hpages : ∀ p, pages p = (full.drop ((p - 1) * 100)).take 100) :
    gatheredProjects pages full.length = full := by
  unfold gatheredProjects
  have hfun : pages = fun p => (full.drop ((p - 1) * 100)).take 100 := funext hpages
  rcases Nat.eq_zero_or_pos (maxPage full.length) with h0 | hpos
  · have hlen : full.length = 0 := by
      unfold maxPage at h0
      have hq := Nat.div_add_mod (full.length + 99) 100
      have hr := Nat.mod_lt (full.length + 99) (show 0 < 100 by norm_num)
      omega
    have hnil : full = [] := List.length_eq_zero.mp hlen
    subst hnil
    rw [h0]
    simp [hpages 1]
  · obtain ⟨m, hm⟩ : ∃ m, maxPage full.length = m + 1 :=
      ⟨maxPage full.length - 1, by omega⟩
    have hb := maxPage_le_mul full.length
    rw [hm] at hb
    have hcover := chunks_cover (m + 1) full hb
    rw [List.range'_succ, List.flatMap_cons] at hcover
    rw [hm, hfun]
    simpa using hcover

/-- Claim C2: get_project_id computes max_page as the ceiling of
totalAvailable / 100 (totalAvailable 250 gives max_page 3), fetches pages 1
through max_page and concatenates their project elements before scanning, so
that when the server serves the full project list in 100-element pages the
scanned list is exactly the full list. -/
theorem get_project_id_pagination (full : List Project) (pages : Nat → List Project)
    (hpages : ∀ p, pages p = (full.drop ((p - 1) * 100)).take 100)
    (dest_project : String) :
    maxPage full.length = ⌈(full.length : ℚ) / 100⌉₊ ∧
    maxPage 250 = 3 ∧
    gatheredProjects pages full.length = full ∧
    get_project_id pages full.length dest_project = scanProjects full dest_project :=
  ⟨maxPage_eq_ceil _, by decide, gatheredProjects_eq full pages hpages, by
    unfold get_project_id
    rw [gatheredProjects_eq full pages hpages]⟩

/-- Witness for C2 at a concrete one-project server. -/
theorem get_project_id_pagination_witness :
    get_project_id
      (fun p => (([(⟨some "p1", some "Default"⟩ : Project)].drop ((p - 1) * 100)).take 100))
      [(⟨some "p1", some "Default"⟩ : Project)].length "Default" = .ok (some "p1") := by
  rw [(get_project_id_pagination [(⟨some "p1", some "Default"⟩ : Project)]
    (fun p => (([(⟨some "p1", some "Default"⟩ : Project)].drop ((p - 1) * 100)).take 100))
    (fun _ => rfl) "Default").2.2.2]
  decide

/-- Claim C1 (the code violates the scoped-release contract): in main, after
a successful sign_in, a LookupError raised by a middle pipeline stage (here
get_project_id on an empty server) propagates out of main before the
sign_out call on line 371, so sign_out is invoked zero times rather than
exactly once; only on the all-success path is it invoked exactly once. -/
theorem main_sign_out_skipped_on_failure :
    signOutCount ⟨.ok (some "token", some "site-id", some "user-id"),
      get_project_id (fun _ => []) 0 "Default",
      .ok (some "w1"), .ok (some "s1"), .ok (some "e1"), .ok (some "j1"), .ok ()⟩ = 0 ∧
    (mainRun ⟨.ok (some "token", some "site-id", some "user-id"),
      get_project_id (fun _ => []) 0 "Default",
      .ok (some "w1"), .ok (some "s1"), .ok (some "e1"), .ok (some "j1"), .ok ()⟩).1 =
      .lookupError "Project named 'Default' was not found on server" ∧
    signOutCount ⟨.ok (some "token", some "site-id", some "user-id"), .ok (some "p1"),
      .ok (some "w1"), .ok (some "s1"), .ok (some "e1"), .ok (some "j1"), .ok ()⟩ = 1 := by
  decide

end RefreshExtract
